import Mathlib

/-!
Verification of the command/session orchestration layer of the
app-release-copilot CLI against its natural-language specification.

The TypeScript sources are shallowly embedded: pure functions become Lean
functions on `String`/`List`; the session manager's stateful streaming loop
becomes a fold over an explicit event list; JavaScript string primitives
(`trim`, `toLowerCase`, `startsWith`, `slice`, `split`, `includes`) are
re-implemented on `String.data` so that every definition is executable.
All inputs of interest are ASCII, where these models agree with the
JavaScript (UTF-16 based) primitives.  Terminal colorization (the `c.*`
theming wrappers) is out of scope per the specification and is dropped
from the embedded spinner strings.
-/

namespace ARC

/-! ## JavaScript string primitives -/

/-- JS whitespace class used by `trim` (ASCII-faithful). -/
def jsWS (c : Char) : Bool := c.isWhitespace

/-- `String.prototype.trim` on the character list. -/
def jsTrimL (l : List Char) : List Char :=
  ((l.dropWhile jsWS).reverse.dropWhile jsWS).reverse

/-- `String.prototype.trim`. -/
def jsTrim (s : String) : String := String.mk (jsTrimL s.data)

/-- `String.prototype.trimStart`. -/
def jsTrimStart (s : String) : String := String.mk (s.data.dropWhile jsWS)

/-- `String.prototype.toLowerCase` (ASCII-faithful). -/
def jsToLower (s : String) : String := String.mk (s.data.map Char.toLower)

/-- `String.prototype.startsWith`. -/
def jsStartsWith (s p : String) : Bool := p.data.isPrefixOf s.data

/-- `String.prototype.slice(n)` for a nonnegative index. -/
def jsSlice (s : String) (n : Nat) : String := String.mk (s.data.drop n)

/-- Occurrence of `sub` as a contiguous sublist of `l`. -/
def jsIncludesL (sub : List Char) : List Char → Bool
  | [] => sub.isEmpty
  | c :: rest => sub.isPrefixOf (c :: rest) || jsIncludesL sub rest

/-- `String.prototype.includes`. -/
def jsIncludes (s sub : String) : Bool := jsIncludesL sub.data s.data

/-- `String.prototype.split(sep)` for a one-character separator. -/
def jsSplitChar (sep : Char) : List Char → List (List Char)
  | [] => [[]]
  | c :: rest =>
    if c = sep then [] :: jsSplitChar sep rest
    else
      match jsSplitChar sep rest with
      | [] => [[c]]
      | h :: t => (c :: h) :: t

/-- `Array.prototype.join(sep)` for strings. -/
def joinWith (sep : String) : List String → String
  | [] => ""
  | [x] => x
  | x :: rest => x ++ sep ++ joinWith sep (rest)

/-- JS truthiness coercion `s || undefined` on a string. -/
def strToOption (s : String) : Option String := if s = "" then none else some s

/-! ## Command parser (src/ui/prompts.ts) -/

/-- The seven content kinds (`ContentType` in src/ui/prompts.ts). -/
inductive ContentType where
  | title | subtitle | description | keywords | releaseNotes | promoText | full
deriving DecidableEq, Repr

/-- Parsed command variants (`Command` in src/ui/prompts.ts).  The source
tag `export` is a Lean keyword, hence `exportCmd`. -/
inductive Command where
  | content (contentType : ContentType)
  | model
  | copy
  | last
  | clear
  | help
  | quit
  | exportCmd
  | score (keyword : String)
  | url
  | icon (prompt : Option String)
  | feature (prompt : Option String)
  | chat (message : String)
deriving DecidableEq, Repr

/-- The static alias table `COMMAND_MAP` of src/ui/prompts.ts. -/
def commandMapList : List (String × Command) :=
  [("/title", .content .title),
   ("/subtitle", .content .subtitle),
   ("/sub", .content .subtitle),
   ("/description", .content .description),
   ("/desc", .content .description),
   ("/keywords", .content .keywords),
   ("/kw", .content .keywords),
   ("/release", .content .releaseNotes),
   ("/whatsnew", .content .releaseNotes),
   ("/promo", .content .promoText),
   ("/tagline", .content .promoText),
   ("/full", .content .full),
   ("/all", .content .full),
   ("/model", .model),
   ("/copy", .copy),
   ("/last", .last),
   ("/back", .last),
   ("/clear", .clear),
   ("/cls", .clear),
   ("/help", .help),
   ("/h", .help),
   ("/?", .help),
   ("/quit", .quit),
   ("/exit", .quit),
   ("/q", .quit),
   ("/export", .exportCmd),
   ("/save", .exportCmd),
   ("/url", .url),
   ("/import", .url),
   ("/icon", .icon none),
   ("/feature", .feature none),
   ("/graphic", .feature none)]

/-- Key lookup in `COMMAND_MAP`. -/
def commandMap (key : String) : Option Command :=
  (commandMapList.find? (fun p => p.1 = key)).map Prod.snd

/-- Body of `parseCommand` of src/ui/prompts.ts after the initial
`input.trim()`, factored out on the trimmed line.  The `/score` branch
falls through when the sliced keyword trims to empty, exactly as in the
source; `/icon`, `/feature` and `/graphic` payloads go through
`prompt || undefined`; both unknown slash commands and plain text end as a
chat command with the trimmed line. -/
def parseCommandCore (trimmed : String) : Command :=
  let lowered := jsToLower trimmed
  if jsStartsWith lowered "/score " && (jsTrim (jsSlice trimmed 7) != "") then
    Command.score (jsTrim (jsSlice trimmed 7))
  else if jsStartsWith lowered "/icon " then
    Command.icon (strToOption (jsTrim (jsSlice trimmed 6)))
  else if jsStartsWith lowered "/feature " || jsStartsWith lowered "/graphic " then
    Command.feature (strToOption (jsTrim (jsSlice trimmed 9)))
  else
    match commandMap lowered with
    | some cmd => cmd
    | none => if trimmed = "" then Command.chat "" else Command.chat trimmed

/-- `parseCommand` of src/ui/prompts.ts. -/
def parseCommand (input : String) : Command := parseCommandCore (jsTrim input)

/-! ## Response extractor (src/utils/export.ts) -/

/-- The character-count annotation-line test `/^\s*\(Character count:/i`. -/
def isCharCountLine (line : String) : Bool :=
  jsStartsWith (jsToLower (jsTrimStart line)) "(character count:"

/-- The line-collecting loop of `extractDescription`: `inBody` flips to true
at the first markdown heading; heading and character-count lines are always
skipped; other lines are kept only once `inBody` holds. -/
def extractDescBody : Bool → List String → List String
  | _, [] => []
  | inBody, line :: rest =>
    if jsStartsWith line "#" then extractDescBody true rest
    else if isCharCountLine line then extractDescBody inBody rest
    else if inBody then line :: extractDescBody inBody rest
    else extractDescBody inBody rest

/-- `extractDescription` of src/utils/export.ts. -/
def extractDescription (content : String) : Option String :=
  let lines := (jsSplitChar '\n' content.data).map String.mk
  let bodyLines := extractDescBody false lines
  let body := jsTrim (joinWith "\n" bodyLines)
  if body.length > 10 then some body else none

/-- Modelled from the spec sentence for claim comparison only: drop every
heading line and every character-count line from the whole input (no
first-heading gate), join, trim, apply the 10-character floor. -/
def extractDescriptionClaimed (content : String) : Option String :=
  let lines := (jsSplitChar '\n' content.data).map String.mk
  let bodyLines := lines.filter
    (fun l => !(jsStartsWith l "#") && !(isCharCountLine l))
  let body := jsTrim (joinWith "\n" bodyLines)
  if body.length > 10 then some body else none

/-- Everything up to and including the first heading line, or `none` when no
heading line exists.  Characterizes the `inBody` gate of the source. -/
def dropThroughFirstHeading : List String → Option (List String)
  | [] => none
  | l :: rest =>
    if jsStartsWith l "#" then some rest else dropThroughFirstHeading rest

/-- Restatement of `extractDescription` used by the amended claim: the body
consists of the non-heading, non-character-count lines strictly after the
first heading line; inputs without a heading line always yield `none`. -/
def extractDescriptionAmended (content : String) : Option String :=
  let lines := (jsSplitChar '\n' content.data).map String.mk
  match dropThroughFirstHeading lines with
  | none => none
  | some rest =>
    let bodyLines := rest.filter
      (fun l => !(jsStartsWith l "#") && !(isCharCountLine l))
    let body := jsTrim (joinWith "\n" bodyLines)
    if body.length > 10 then some body else none

/-! ## Store config export (src/utils/export.ts, src/types.ts) -/

/-- `GeneratedMetadata` of src/types.ts (all fields optional). -/
structure GeneratedMetadata where
  title : Option String := none
  subtitle : Option String := none
  description : Option String := none
  keywords : Option (List String) := none
  releaseNotes : Option String := none
  promoText : Option String := none
  iconPath : Option String := none
  featureGraphicPath : Option String := none
deriving DecidableEq, Repr

/-- `ExpoAppleInfo` of src/types.ts (the six exported text fields). -/
structure ExpoAppleInfo where
  title : Option String
  subtitle : Option String
  description : Option String
  keywords : Option (List String)
  releaseNotes : Option String
  promoText : Option String
deriving DecidableEq, Repr

/-- `ExpoStoreConfig` of src/types.ts: `configVersion` plus the single
`apple.info."en-US"` block. -/
structure ExpoStoreConfig where
  configVersion : Nat
  appleInfoEnUS : ExpoAppleInfo
deriving DecidableEq, Repr

/-- `buildStoreConfig` of src/utils/export.ts: forwards every metadata field
(defined or not) into the `en-US` info block with `configVersion` 0. -/
def buildStoreConfig (metadata : GeneratedMetadata) : ExpoStoreConfig :=
  { configVersion := 0,
    appleInfoEnUS :=
      { title := metadata.title,
        subtitle := metadata.subtitle,
        description := metadata.description,
        keywords := metadata.keywords,
        releaseNotes := metadata.releaseNotes,
        promoText := metadata.promoText } }

/-- JSON values as produced by `JSON.stringify`. -/
inductive Json where
  | str (s : String)
  | num (n : Nat)
  | arr (elems : List Json)
  | obj (members : List (String × Json))
  | null

/-- `JSON.stringify` member emission for one optional field: a field whose
value is `undefined` is omitted entirely (never serialized as `null`). -/
def optField (name : String) (v : Option Json) : List (String × Json) :=
  match v with
  | some j => [(name, j)]
  | none => []

/-- Serialized members of the `en-US` info object, in source key order. -/
def appleInfoJson (info : ExpoAppleInfo) : List (String × Json) :=
  optField "title" (info.title.map Json.str) ++
  optField "subtitle" (info.subtitle.map Json.str) ++
  optField "description" (info.description.map Json.str) ++
  optField "keywords" (info.keywords.map (fun ks => Json.arr (ks.map Json.str))) ++
  optField "releaseNotes" (info.releaseNotes.map Json.str) ++
  optField "promoText" (info.promoText.map Json.str)

/-- The full JSON document written by `exportStoreConfig`. -/
def storeConfigJson (config : ExpoStoreConfig) : Json :=
  Json.obj
    [("configVersion", Json.num config.configVersion),
     ("apple", Json.obj
       [("info", Json.obj
         [("en-US", Json.obj (appleInfoJson config.appleInfoEnUS))])])]

/-! ## App Store utilities (src/utils/appstore.ts) -/

/-- `AppStoreMetadata` of src/types.ts; numeric fields modelled as `Int`. -/
structure AppStoreMetadata where
  trackId : Int
  trackName : String
  description : String
  sellerName : String
  primaryGenreName : String
  genres : List String
  price : Int
  averageUserRating : Option Int
  userRatingCount : Option Int
  version : String
  releaseNotes : Option String
deriving DecidableEq, Repr

/-- First match of the regex `\/id(\d+)`: scan for `/id` followed by at
least one digit and capture the maximal digit run. -/
def findIdDigits : List Char → Option (List Char)
  | '/' :: 'i' :: 'd' :: rest =>
    (match rest with
     | c :: _ =>
       if c.isDigit then some (rest.takeWhile Char.isDigit)
       else findIdDigits ('i' :: 'd' :: rest)
     | [] => none)
  | _ :: rest => findIdDigits rest
  | [] => none

/-- The regex test `^(\d{9,10})$`. -/
def isNumericId (s : String) : Bool :=
  (9 ≤ s.data.length && s.data.length ≤ 10) && s.data.all Char.isDigit

/-- `extractAppStoreId` of src/utils/appstore.ts. -/
def extractAppStoreId (url : String) : Option String :=
  match findIdDigits url.data with
  | some ds => some (String.mk ds)
  | none => if isNumericId url then some url else none

/-- `isAppStoreUrl` of src/utils/appstore.ts. -/
def isAppStoreUrl (url : String) : Bool :=
  jsIncludes url "apps.apple.com" ||
  jsIncludes url "itunes.apple.com" ||
  isNumericId url

/-- `fetchAppStoreMetadata` of src/utils/appstore.ts.  The iTunes lookup
HTTP call, response parsing and the surrounding try/catch are abstracted
into the `lookup` oracle; the returned flag records whether the lookup was
performed at all.  A `none` app id short-circuits before any network use. -/
def fetchAppStoreMetadata (url : String)
    (lookup : String → Option AppStoreMetadata) :
    Option AppStoreMetadata × Bool :=
  match extractAppStoreId url with
  | none => (none, false)
  | some appId => (lookup appId, true)

/-! ## Double Ctrl+C protocol (src/index.ts) -/

/-- `DOUBLE_CTRL_C_WINDOW_MS` of src/index.ts. -/
def DOUBLE_CTRL_C_WINDOW_MS : Int := 1000

/-- `shouldExitOnCtrlC` of src/index.ts: the module-level `lastCtrlCTime`
(initially 0) is threaded explicitly; `now` is the `Date.now()` reading.
Returns the decision and the updated `lastCtrlCTime`. -/
def shouldExitOnCtrlC (lastCtrlCTime now : Int) : Bool × Int :=
  if now - lastCtrlCTime < DOUBLE_CTRL_C_WINDOW_MS then (true, lastCtrlCTime)
  else (false, now)

/-- Observable outcome of `handleCtrlC`. -/
inductive CtrlCAction where
  | exitProcess (code : Nat)
  | showHint
deriving DecidableEq, Repr

/-- `handleCtrlC` of src/index.ts: on a positive decision it prints the
goodbye message, runs cleanup and exits with code 0; otherwise it prints
the press-again hint and returns to the loop. -/
def handleCtrlC (lastCtrlCTime now : Int) : CtrlCAction × Int :=
  let r := shouldExitOnCtrlC lastCtrlCTime now
  if r.1 then (CtrlCAction.exitProcess 0, r.2) else (CtrlCAction.showHint, r.2)

/-! ## Session manager (src/services/copilot.ts) -/

/-- `QuotaInfo` of src/services/copilot.ts; numbers modelled as `Int`. -/
structure QuotaInfo where
  model : Option String
  usedRequests : Int
  totalRequests : Int
  remainingPercentage : Int
  resetDate : Option String
  isUnlimited : Bool
deriving DecidableEq, Repr

/-- The session events interpreted by `streamGeneration`.  For the usage
event, the extraction of the first quota snapshot from the event payload is
folded into the carried `Option QuotaInfo` (absent when the payload holds
no snapshot). -/
inductive SessionEvent where
  | messageDelta (deltaContent : String)
  | toolExecutionStart (toolName : String)
  | toolExecutionComplete (success : Bool)
  | assistantUsage (snapshot : Option QuotaInfo)
  | sessionIdle
  | sessionError (message : Option String)
deriving DecidableEq, Repr

/-- `getContentLabel` of src/services/copilot.ts. -/
def getContentLabel : ContentType → String
  | .title => "title options"
  | .subtitle => "subtitle options"
  | .description => "description"
  | .keywords => "keywords"
  | .releaseNotes => "release notes"
  | .promoText => "promo text"
  | .full => "ASO package"

/-- `getSpinnerText` of src/services/copilot.ts. -/
def getSpinnerText : ContentType → String
  | .title => "🎯 Crafting app titles..."
  | .subtitle => "📝 Writing subtitles..."
  | .description => "📱 Generating App Store description..."
  | .keywords => "🔑 Researching keywords..."
  | .releaseNotes => "🆕 Writing release notes..."
  | .promoText => "✨ Creating promo text..."
  | .full => "🚀 Generating complete ASO package..."

/-- `getToolFriendlyName` of src/services/copilot.ts, returning the
(emoji, action) pair. -/
def getToolFriendlyName (toolName : String) : String × String :=
  let normalizedName :=
    String.mk ((jsToLower toolName).data.map (fun c => if c = '-' then '_' else c))
  if jsIncludes normalizedName "keyword" then
    ("📊", "Analyzing keyword scores...")
  else
    ("⚙️", "Running " ++ toolName ++ "...")

/-- Match of `\s+[^\n]+` at the head of the list: a whitespace character
followed, possibly after further whitespace, by some non-newline character. -/
def wsThenNonNewline : List Char → Bool
  | c :: tail => jsWS c && tail.any (fun x => x ≠ '\n')
  | [] => false

/-- Match of the regex `#{1,2}\s+[^\n]+` anchored at the head of the list
(with backtracking between the two-hash and one-hash alternatives). -/
def headingHere (l : List Char) : Bool :=
  match l with
  | '#' :: rest =>
    (match rest with
     | '#' :: rest2 => wsThenNonNewline rest2
     | _ => false) || wsThenNonNewline rest
  | _ => false

/-- Index of the first match of `#{1,2}\s+[^\n]+`, as found by
`String.prototype.match`. -/
def findHeadingIndex : List Char → Option Nat
  | [] => none
  | c :: rest =>
    if headingHere (c :: rest) then some 0
    else (findHeadingIndex rest).map (· + 1)

/-- `cleanOutput` of src/services/copilot.ts: from the first heading match
onward, trimmed; otherwise the whole text trimmed. -/
def cleanOutput (text : String) : String :=
  match findHeadingIndex text.data with
  | some i => jsTrim (String.mk (text.data.drop i))
  | none => jsTrim text

/-- The mutable state of one `streamGeneration` call: the accumulating
output buffer, the two progress counters, the spinner text (side-channel
activity indicator) and the service-level quota snapshot. -/
structure StreamState where
  output : String
  isGeneratingContent : Bool
  toolsCompleted : Nat
  spinnerText : String
  quotaInfo : Option QuotaInfo
deriving DecidableEq, Repr

/-- Initial per-request stream state; the spinner was last set by the
caller (`spinner.start(...)`), passed in as `spinnerText`. -/
def initStreamState (spinnerText : String) : StreamState :=
  { output := "", isGeneratingContent := false, toolsCompleted := 0,
    spinnerText := spinnerText, quotaInfo := none }

/-- One step of the event handler registered by `streamGeneration`
(the non-terminal cases of its `switch`). -/
def streamStep (contentLabel : String) (st : StreamState) :
    SessionEvent → StreamState
  | .messageDelta d =>
    if d ≠ "" then
      let output := st.output ++ d
      let isGen := true
      let text1 :=
        if !st.isGeneratingContent then "✨ Writing " ++ contentLabel ++ "..."
        else st.spinnerText
      let lines := (jsSplitChar '\n' output.data).length
      let text2 :=
        if lines > 3 then
          "✨ Writing " ++ contentLabel ++ "... (" ++ toString lines ++ " lines)"
        else text1
      { st with output := output, isGeneratingContent := isGen,
                spinnerText := text2 }
    else st
  | .toolExecutionStart toolName =>
    let friendly := getToolFriendlyName toolName
    { st with spinnerText := friendly.1 ++ " " ++ friendly.2 }
  | .toolExecutionComplete ok =>
    if ok then
      let n := st.toolsCompleted + 1
      { st with toolsCompleted := n,
                spinnerText := "✓ Tool completed (" ++ toString n ++ ")" }
    else st
  | .assistantUsage snapshot =>
    (match snapshot with
     | some q => { st with quotaInfo := some q }
     | none => st)
  | .sessionIdle => st
  | .sessionError _ => st

/-- Settlement of one streamed request. -/
inductive StreamOutcome where
  | resolved (text : String)
  | rejected (message : String)
deriving DecidableEq, Repr

/-- `streamGeneration`: fold the handler over the arriving events; the
first `session.idle` resolves with the accumulated buffer, the first
`session.error` rejects with the carried message (or the fixed fallback);
`none` when the event stream ends without a terminal event (the pending
promise never settles). -/
def runStream (contentLabel : String) (st : StreamState) :
    List SessionEvent → Option StreamOutcome
  | [] => none
  | e :: rest =>
    match e with
    | .sessionIdle => some (StreamOutcome.resolved st.output)
    | .sessionError msg =>
      some (StreamOutcome.rejected (msg.getD "Session error occurred"))
    | _ => runStream contentLabel (streamStep contentLabel st e) rest

/-- `GenerationResult` of src/services/copilot.ts. -/
structure GenerationResult where
  content : String
  success : Bool
  error : Option String := none
deriving DecidableEq, Repr

/-- The per-content-kind result cache `context.generatedContent`. -/
def CacheMap : Type := ContentType → Option String

/-- `Map.prototype.delete`. -/
def mapDelete (m : CacheMap) (k : ContentType) : CacheMap :=
  fun x => if x = k then none else m x

/-- `Map.prototype.set`. -/
def mapSet (m : CacheMap) (k : ContentType) (v : String) : CacheMap :=
  fun x => if x = k then some v else m x

/-- `CopilotService.generate`: the backend's event stream for the request
that would be sent is supplied as `events`.  Returns the settled result
(`none` when the stream never settles), the cache afterwards, and whether
a backend request was issued at all.  The cache-hit test mirrors the JS
truthiness of `if (cached && !regenerate)`: an empty cached string does
not count as a hit. -/
def generate (cache : CacheMap) (contentType : ContentType)
    (regenerate : Bool) (events : List SessionEvent) :
    Option GenerationResult × CacheMap × Bool :=
  let cache1 := if regenerate then mapDelete cache contentType else cache
  match cache1 contentType with
  | some cached =>
    if cached != "" && !regenerate then
      (some { content := cached, success := true }, cache1, false)
    else
      generateRequest cache1 contentType events
  | none => generateRequest cache1 contentType events
where
  /-- The backend-request branch of `generate` (prompt build, spinner
  start, stream, clean, cache store / error report). -/
  generateRequest (cache1 : CacheMap) (contentType : ContentType)
      (events : List SessionEvent) :
      Option GenerationResult × CacheMap × Bool :=
    match runStream (getContentLabel contentType)
        (initStreamState (getSpinnerText contentType)) events with
    | some (StreamOutcome.resolved raw) =>
      let content := cleanOutput raw
      (some { content := content, success := true },
       mapSet cache1 contentType content, true)
    | some (StreamOutcome.rejected msg) =>
      (some { content := "", success := false, error := some msg },
       cache1, true)
    | none => (none, cache1, true)

/-! ## Model switching (src/services/copilot.ts) -/

/-- One entry of the `MCP_SERVERS` configuration object. -/
structure McpServerConfig where
  name : String
  kind : String
  url : String
  tools : List String
deriving DecidableEq, Repr

/-- `MCP_SERVERS` of src/services/copilot.ts. -/
def MCP_SERVERS : List McpServerConfig :=
  [{ name := "aso-keywords", kind := "http",
     url := "https://aso-mcp.vercel.app/api/mcp", tools := ["*"] }]

/-- The argument object of `client.createSession` as built by both
`initialize` and `switchModel`.  The content of the `SYSTEM_PROMPT_ASO`
prose constant never influences control flow, so it is threaded through as
the `systemContent` parameter wherever the source reads the constant. -/
structure CreateSessionRequest where
  model : String
  streaming : Bool
  mcpServers : List McpServerConfig
  systemMode : String
  systemContent : String
deriving DecidableEq, Repr

/-- The `createSession` call shared verbatim by `initialize` and
`switchModel`: streaming on, the MCP tool servers attached, and the system
message appended (mode "append"). -/
def buildSessionConfig (model systemPromptASO : String) : CreateSessionRequest :=
  { model := model, streaming := true, mcpServers := MCP_SERVERS,
    systemMode := "append", systemContent := systemPromptASO }

/-- A live backend session handle, with its remote-destruction flag. -/
structure SessionRec where
  sid : Nat
  destroyed : Bool
deriving DecidableEq, Repr

/-- The fields of `CopilotService` that `switchModel` touches. -/
structure CopilotServiceState where
  client : Bool
  session : Option SessionRec
  currentModel : String
deriving DecidableEq, Repr

/-- `CopilotService.switchModel`.  External nondeterminism is supplied as
arguments: `destroyThrows` tells whether `session.destroy()` throws (the
catch swallows it either way), `createResult` is the outcome of
`client.createSession`.  Returns the service state afterwards, the error
that propagated to the caller (if any), and the `createSession` request
that was issued (if the call was reached). -/
def switchModel (st : CopilotServiceState) (newModel : String)
    (systemPromptASO : String) (destroyThrows : Bool)
    (createResult : Except String SessionRec) :
    CopilotServiceState × Option String × Option CreateSessionRequest :=
  if newModel = st.currentModel then (st, none, none)
  else
    let stD :=
      match st.session with
      | some s =>
        if destroyThrows then st
        else { st with session := some { s with destroyed := true } }
      | none => st
    let st1 := { stD with currentModel := newModel }
    if !st1.client then
      (st1, some "Service not initialized. Call initialize() first.", none)
    else
      match createResult with
      | .ok s =>
        ({ st1 with session := some s }, none,
         some (buildSessionConfig newModel systemPromptASO))
      | .error e =>
        (st1, some e, some (buildSessionConfig newModel systemPromptASO))

/-! ## Helper lemmas -/

/-- Appending the empty string on the right is the identity. -/
lemma string_append_empty (s : String) : s ++ "" = s := by
  cases s with
  | mk l => show String.mk (l ++ []) = String.mk l
            rw [List.append_nil]

/-- A `generate` call without `regenerate` and with no cached entry goes to
the backend-request branch. -/
lemma generate_false_of_none (cache : CacheMap) (ct : ContentType)
    (evts : List SessionEvent) (h : cache ct = none) :
    generate cache ct false evts = generate.generateRequest cache ct evts := by
  simp [generate, h]

/-- A `generate` call without `regenerate` on a nonempty cached entry is a
pure cache hit. -/
lemma generate_hit (cache : CacheMap) (ct : ContentType)
    (evts : List SessionEvent) (cached : String)
    (h : cache ct = some cached) (hne : cached ≠ "") :
    generate cache ct false evts =
      (some { content := cached, success := true, error := none },
       cache, false) := by
  simp [generate, h, hne]

/-- A `generate` call with `regenerate` first deletes the entry and then
goes to the backend-request branch on the shrunk cache. -/
lemma generate_regen (cache : CacheMap) (ct : ContentType)
    (evts : List SessionEvent) :
    generate cache ct true evts =
      generate.generateRequest (mapDelete cache ct) ct evts := by
  have h : mapDelete cache ct ct = none := by simp [mapDelete]
  simp [generate, h]

/-- The backend-request branch always issues a request. -/
lemma generateRequest_issues (cache : CacheMap) (ct : ContentType)
    (evts : List SessionEvent) :
    (generate.generateRequest cache ct evts).2.2 = true := by
  unfold generate.generateRequest
  split
  · rfl
  · rfl
  · rfl

/-- The backend-request branch on a rejecting stream reports the carried
message, keeps the cache unchanged and stores nothing. -/
lemma generateRequest_rejected (cache : CacheMap) (ct : ContentType)
    (evts : List SessionEvent) (m : String)
    (hs : runStream (getContentLabel ct) (initStreamState (getSpinnerText ct))
            evts = some (StreamOutcome.rejected m)) :
    generate.generateRequest cache ct evts =
      (some { content := "", success := false, error := some m }, cache, true) := by
  unfold generate.generateRequest
  rw [hs]

/-- The backend-request branch on a resolving stream cleans the raw text,
stores it under the requested kind and reports success. -/
lemma generateRequest_resolved (cache : CacheMap) (ct : ContentType)
    (evts : List SessionEvent) (raw : String)
    (hs : runStream (getContentLabel ct) (initStreamState (getSpinnerText ct))
            evts = some (StreamOutcome.resolved raw)) :
    generate.generateRequest cache ct evts =
      (some { content := cleanOutput raw, success := true, error := none },
       mapSet cache ct (cleanOutput raw), true) := by
  unfold generate.generateRequest
  rw [hs]

/-! ## Claim theorems -/

/-- C1: within one streamed request, message-delta events append their text
to the accumulating buffer at the end (arrival order), tool-execution-start
and tool-execution-complete events never alter the buffer (they only move
the spinner side channel), and the synthetic sequence
[delta "A", delta "B", tool-start, tool-complete, delta "C", idle] resolves
with accumulated text exactly "ABC". -/
theorem stream_buffer_delta_order_tool_invariance :
    (∀ label st name,
      (streamStep label st (SessionEvent.toolExecutionStart name)).output
        = st.output) ∧
    (∀ label st ok,
      (streamStep label st (SessionEvent.toolExecutionComplete ok)).output
        = st.output) ∧
    (∀ label st d,
      (streamStep label st (SessionEvent.messageDelta d)).output
        = st.output ++ d) ∧
    (∀ label spin name ok,
      runStream label (initStreamState spin)
        [SessionEvent.messageDelta "A", SessionEvent.messageDelta "B",
         SessionEvent.toolExecutionStart name,
         SessionEvent.toolExecutionComplete ok,
         SessionEvent.messageDelta "C", SessionEvent.sessionIdle]
        = some (StreamOutcome.resolved "ABC")) := by
  refine ⟨fun label st name => rfl, fun label st ok => ?_, fun label st d => ?_,
    fun label spin name ok => ?_⟩
  · cases ok <;> rfl
  · by_cases h : d = ""
    · subst h
      simp [streamStep, string_append_empty]
    · simp [streamStep, h]
  · cases ok <;> rfl

/-- C7: `buildStoreConfig` puts `configVersion` 0 and a single
`apple.info."en-US"` block in the exported JSON; with only `title` and
`keywords` populated, the serialized info object carries exactly the keys
"title" and "keywords" — `subtitle`, `description`, `releaseNotes` and
`promoText` are absent, and no member is serialized as `null`. -/
theorem buildStoreConfig_omits_absent :
    ∀ (t : String) (ks : List String),
    storeConfigJson (buildStoreConfig { title := some t, keywords := some ks }) =
      Json.obj
        [("configVersion", Json.num 0),
         ("apple", Json.obj
           [("info", Json.obj
             [("en-US", Json.obj
               [("title", Json.str t),
                ("keywords", Json.arr (ks.map Json.str))])])])] ∧
    (appleInfoJson
        (buildStoreConfig { title := some t, keywords := some ks }).appleInfoEnUS).map
        Prod.fst = ["title", "keywords"] ∧
    "subtitle" ∉ (appleInfoJson
        (buildStoreConfig { title := some t, keywords := some ks }).appleInfoEnUS).map
        Prod.fst ∧
    "description" ∉ (appleInfoJson
        (buildStoreConfig { title := some t, keywords := some ks }).appleInfoEnUS).map
        Prod.fst ∧
    "releaseNotes" ∉ (appleInfoJson
        (buildStoreConfig { title := some t, keywords := some ks }).appleInfoEnUS).map
        Prod.fst ∧
    "promoText" ∉ (appleInfoJson
        (buildStoreConfig { title := some t, keywords := some ks }).appleInfoEnUS).map
        Prod.fst ∧
    Json.null ∉ (appleInfoJson
        (buildStoreConfig { title := some t, keywords := some ks }).appleInfoEnUS).map
        Prod.snd := by
  intro t ks
  refine ⟨rfl, rfl, ?_, ?_, ?_, ?_, ?_⟩ <;>
    simp [appleInfoJson, buildStoreConfig, optField]

/-- C8: with `lastCtrlCTime` at its initial value 0 and the current clock at
least one second past the epoch, a first interrupt only shows the
press-again hint and re-arms the window at its own timestamp; a second
interrupt strictly within 1000 ms of the first exits the process with code
0, while a second interrupt more than 1000 ms later again only shows the
hint. -/
theorem double_interrupt_protocol (t1 t2 : Int)
    (h1 : 1000 ≤ t1) (h12 : t1 ≤ t2) :
    (handleCtrlC 0 t1).1 = CtrlCAction.showHint ∧
    (handleCtrlC 0 t1).2 = t1 ∧
    (t2 - t1 < 1000 → (handleCtrlC t1 t2).1 = CtrlCAction.exitProcess 0) ∧
    (t2 - t1 > 1000 → (handleCtrlC t1 t2).1 = CtrlCAction.showHint) := by
  have h0 : ¬(t1 < (1000 : Int)) := by omega
  refine ⟨?_, ?_, fun h => ?_, fun h => ?_⟩
  · simp [handleCtrlC, shouldExitOnCtrlC, DOUBLE_CTRL_C_WINDOW_MS, h0]
  · simp [handleCtrlC, shouldExitOnCtrlC, DOUBLE_CTRL_C_WINDOW_MS, h0]
  · simp [handleCtrlC, shouldExitOnCtrlC, DOUBLE_CTRL_C_WINDOW_MS, h]
  · have h2 : ¬(t2 - t1 < (1000 : Int)) := by omega
    simp [handleCtrlC, shouldExitOnCtrlC, DOUBLE_CTRL_C_WINDOW_MS, h2]

/-- Witness for C8 at concrete timestamps 2000 and 2500. -/
theorem double_interrupt_protocol_witness :
    (handleCtrlC 0 2000).1 = CtrlCAction.showHint ∧
    (handleCtrlC 0 2000).2 = 2000 ∧
    ((2500 : Int) - 2000 < 1000 →
      (handleCtrlC 2000 2500).1 = CtrlCAction.exitProcess 0) ∧
    ((2500 : Int) - 2000 > 1000 →
      (handleCtrlC 2000 2500).1 = CtrlCAction.showHint) :=
  double_interrupt_protocol 2000 2500 (by decide) (by decide)

/-- C10: `isAppStoreUrl` acceptance does not guarantee an extractable app
id: the apps.apple.com URL below passes `isAppStoreUrl` yet
`extractAppStoreId` yields `none`, and `fetchAppStoreMetadata` on it
returns `none` without performing any lookup, for every lookup oracle. -/
theorem appstore_url_without_id :
    isAppStoreUrl "https://apps.apple.com/us/app/myapp" = true ∧
    extractAppStoreId "https://apps.apple.com/us/app/myapp" = none ∧
    ∀ lookup,
      fetchAppStoreMetadata "https://apps.apple.com/us/app/myapp" lookup
        = (none, false) := by
  refine ⟨by decide, by decide, fun lookup => ?_⟩
  unfold fetchAppStoreMetadata
  rw [show extractAppStoreId "https://apps.apple.com/us/app/myapp" = none from
    by decide]

/-- C2: when the backend stream for one request rejects with a carried
message, `generate` reports failure with exactly that message, the
partially accumulated buffer is discarded (content is empty), the cache is
left untouched, and no cache entry exists for the requested kind. -/
theorem generate_error_rejects_discards_no_cache
    (cache : CacheMap) (ct : ContentType) (evts : List SessionEvent)
    (m : String)
    (hc : cache ct = none)
    (hs : runStream (getContentLabel ct) (initStreamState (getSpinnerText ct))
            evts = some (StreamOutcome.rejected m)) :
    generate cache ct false evts =
      (some { content := "", success := false, error := some m }, cache, true) ∧
    (generate cache ct false evts).2.1 ct = none := by
  have hg : generate cache ct false evts =
      (some { content := "", success := false, error := some m }, cache, true) := by
    rw [generate_false_of_none cache ct evts hc, generateRequest_rejected cache ct evts m hs]
  exact ⟨hg, by rw [hg]; exact hc⟩

/-- Witness for C2: the event sequence [delta "A", error "boom"] rejects
with message "boom" and writes no cache entry. -/
theorem generate_error_rejects_discards_no_cache_witness :
    generate (fun _ => none) ContentType.title false
        [SessionEvent.messageDelta "A", SessionEvent.sessionError (some "boom")] =
      (some { content := "", success := false, error := some "boom" },
       (fun _ => none), true) :=
  (generate_error_rejects_discards_no_cache (fun _ => none) ContentType.title
    [SessionEvent.messageDelta "A", SessionEvent.sessionError (some "boom")]
    "boom" rfl (by decide)).1

/-- C9: `generate` with `regenerate := true` deletes the cached entry for
the kind before the backend request is issued; when that request rejects,
the previously cached text is gone (no restore on error), and a subsequent
`generate` without `regenerate` issues a backend request again. -/
theorem regenerate_clears_cache_no_restore
    (cache : CacheMap) (ct : ContentType) (old : String)
    (evts : List SessionEvent) (m : String)
    (hc : cache ct = some old)
    (hs : runStream (getContentLabel ct) (initStreamState (getSpinnerText ct))
            evts = some (StreamOutcome.rejected m)) :
    (generate cache ct true evts).2.2 = true ∧
    (generate cache ct true evts).1 =
      some { content := "", success := false, error := some m } ∧
    (generate cache ct true evts).2.1 ct = none ∧
    ∀ evts2,
      (generate ((generate cache ct true evts).2.1) ct false evts2).2.2 = true := by
  have hdel : mapDelete cache ct ct = none := by simp [mapDelete]
  have hg : generate cache ct true evts =
      (some { content := "", success := false, error := some m },
       mapDelete cache ct, true) := by
    rw [generate_regen cache ct evts,
        generateRequest_rejected (mapDelete cache ct) ct evts m hs]
  refine ⟨by rw [hg], by rw [hg], by rw [hg]; exact hdel, fun evts2 => ?_⟩
  rw [hg]
  show (generate (mapDelete cache ct) ct false evts2).2.2 = true
  rw [generate_false_of_none (mapDelete cache ct) ct evts2 hdel]
  exact generateRequest_issues (mapDelete cache ct) ct evts2

/-- Witness for C9 at a concrete pre-populated cache and failing stream. -/
theorem regenerate_clears_cache_no_restore_witness :
    ((generate (fun _ => some "old") ContentType.title true
        [SessionEvent.sessionError (some "boom")]).2.1) ContentType.title
      = none ∧
    (generate ((generate (fun _ => some "old") ContentType.title true
        [SessionEvent.sessionError (some "boom")]).2.1) ContentType.title
        false []).2.2 = true :=
  ⟨(regenerate_clears_cache_no_restore (fun _ => some "old") ContentType.title
      "old" [SessionEvent.sessionError (some "boom")] "boom" rfl (by decide)).2.2.1,
   (regenerate_clears_cache_no_restore (fun _ => some "old") ContentType.title
      "old" [SessionEvent.sessionError (some "boom")] "boom" rfl
      (by decide)).2.2.2 []⟩

/-- C4 counterexample: starting from an empty cache, a first `generate`
whose stream resolves with no delta text succeeds with content "" and
caches ""; because the cache-hit test uses JS truthiness
(`if (cached && !regenerate)`), the empty cached string is not a hit, so a
second `generate` without `regenerate` issues a second backend request and
can return different text.  This falsifies the claim that two successive
calls always issue exactly one backend request and return identical text. -/
theorem generate_twice_claim_counterexample :
    (generate (fun _ => none) ContentType.title false
        [SessionEvent.sessionIdle]).2.2 = true ∧
    (generate (fun _ => none) ContentType.title false
        [SessionEvent.sessionIdle]).1 =
      some { content := "", success := true, error := none } ∧
    ((generate (fun _ => none) ContentType.title false
        [SessionEvent.sessionIdle]).2.1) ContentType.title = some "" ∧
    (generate ((generate (fun _ => none) ContentType.title false
        [SessionEvent.sessionIdle]).2.1) ContentType.title false
        [SessionEvent.messageDelta "B", SessionEvent.sessionIdle]).2.2 = true ∧
    (generate ((generate (fun _ => none) ContentType.title false
        [SessionEvent.sessionIdle]).2.1) ContentType.title false
        [SessionEvent.messageDelta "B", SessionEvent.sessionIdle]).1 =
      some { content := "B", success := true, error := none } ∧
    (generate (fun _ => none) ContentType.title false
        [SessionEvent.sessionIdle]).1 ≠
      (generate ((generate (fun _ => none) ContentType.title false
          [SessionEvent.sessionIdle]).2.1) ContentType.title false
          [SessionEvent.messageDelta "B", SessionEvent.sessionIdle]).1 := by
  decide

/-- C4 amended: starting from a state with no cached entry for the kind,
if the first `generate` call's stream resolves and its cleaned text is
nonempty, the first call issues the one backend request and succeeds with
the cleaned text, and every second call without `regenerate` is a cache
hit: it issues no backend request and returns the identical text. -/
theorem generate_cache_hit_amended
    (cache : CacheMap) (ct : ContentType) (evts1 : List SessionEvent)
    (raw : String)
    (hc : cache ct = none)
    (hs : runStream (getContentLabel ct) (initStreamState (getSpinnerText ct))
            evts1 = some (StreamOutcome.resolved raw))
    (hne : cleanOutput raw ≠ "") :
    (generate cache ct false evts1).2.2 = true ∧
    (generate cache ct false evts1).1 =
      some { content := cleanOutput raw, success := true, error := none } ∧
    ∀ evts2,
      (generate ((generate cache ct false evts1).2.1) ct false evts2).1 =
        some { content := cleanOutput raw, success := true, error := none } ∧
      (generate ((generate cache ct false evts1).2.1) ct false evts2).2.2
        = false := by
  have hg : generate cache ct false evts1 =
      (some { content := cleanOutput raw, success := true, error := none },
       mapSet cache ct (cleanOutput raw), true) := by
    rw [generate_false_of_none cache ct evts1 hc,
        generateRequest_resolved cache ct evts1 raw hs]
  have hset : mapSet cache ct (cleanOutput raw) ct = some (cleanOutput raw) := by
    simp [mapSet]
  refine ⟨by rw [hg], by rw [hg], fun evts2 => ?_⟩
  rw [hg]
  show (generate (mapSet cache ct (cleanOutput raw)) ct false evts2).1 = _ ∧
    (generate (mapSet cache ct (cleanOutput raw)) ct false evts2).2.2 = false
  rw [generate_hit (mapSet cache ct (cleanOutput raw)) ct evts2
    (cleanOutput raw) hset hne]
  exact ⟨rfl, rfl⟩

/-- Witness for the amended C4 at a concrete stream: first call resolves
with "some text", the second call (empty event script) is a cache hit with
the identical text and no backend request. -/
theorem generate_cache_hit_amended_witness :
    (generate (fun _ => none) ContentType.title false
        [SessionEvent.messageDelta "some text", SessionEvent.sessionIdle]).2.2
      = true ∧
    (generate (fun _ => none) ContentType.title false
        [SessionEvent.messageDelta "some text", SessionEvent.sessionIdle]).1 =
      some { content := cleanOutput "some text", success := true, error := none } ∧
    (generate ((generate (fun _ => none) ContentType.title false
        [SessionEvent.messageDelta "some text", SessionEvent.sessionIdle]).2.1)
        ContentType.title false []).1 =
      some { content := cleanOutput "some text", success := true, error := none } ∧
    (generate ((generate (fun _ => none) ContentType.title false
        [SessionEvent.messageDelta "some text", SessionEvent.sessionIdle]).2.1)
        ContentType.title false []).2.2 = false := by
  have h := generate_cache_hit_amended (fun _ => none) ContentType.title
    [SessionEvent.messageDelta "some text", SessionEvent.sessionIdle]
    "some text" rfl (by decide) (by decide)
  exact ⟨h.1, h.2.1, (h.2.2 []).1, (h.2.2 []).2⟩

/-- C3 counterexample: switching from "gpt-4o" to "claude-sonnet-4" when
`createSession` throws leaves `currentModel` holding the NEW model, because
the source assigns `this.currentModel = newModel` before calling
`createSession`.  This falsifies the claim that the current-model state is
updated only after session creation and still holds the previous model
after a creation failure. -/
theorem switchModel_claim_counterexample :
    (switchModel
        { client := true, session := some { sid := 1, destroyed := false },
          currentModel := "gpt-4o" }
        "claude-sonnet-4" "PROMPT" false (Except.error "boom")).1.currentModel
      = "claude-sonnet-4" ∧
    (switchModel
        { client := true, session := some { sid := 1, destroyed := false },
          currentModel := "gpt-4o" }
        "claude-sonnet-4" "PROMPT" false (Except.error "boom")).2.1
      = some "boom" ∧
    ("claude-sonnet-4" : String) ≠ "gpt-4o" := by
  decide

/-- C3 amended: for a different target model on an initialized service with
a live session, `switchModel` performs a best-effort destroy of the old
session (a destroy failure is swallowed and never blocks the switch), then
updates the current-model state to the new model, and only then issues the
`createSession` request, which carries the identical tool and system
configuration used at initialization.  If creation throws, the error
propagates, the manager keeps only the destroyed old session handle (no
live session when the destroy succeeded), and `currentModel` holds the NEW
model; on success the new session is installed. -/
theorem switchModel_order_amended
    (st : CopilotServiceState) (newModel sys : String) (dthrows : Bool)
    (s0 : SessionRec)
    (hne : newModel ≠ st.currentModel) (hcl : st.client = true)
    (hse : st.session = some s0) :
    (∀ e, switchModel st newModel sys dthrows (Except.error e) =
       ({ client := st.client,
          session := if dthrows then some s0
                     else some { s0 with destroyed := true },
          currentModel := newModel },
        some e, some (buildSessionConfig newModel sys))) ∧
    (∀ s1, switchModel st newModel sys dthrows (Except.ok s1) =
       ({ client := st.client, session := some s1, currentModel := newModel },
        none, some (buildSessionConfig newModel sys))) ∧
    (buildSessionConfig newModel sys).mcpServers =
      (buildSessionConfig st.currentModel sys).mcpServers ∧
    (buildSessionConfig newModel sys).systemMode =
      (buildSessionConfig st.currentModel sys).systemMode ∧
    (buildSessionConfig newModel sys).systemContent =
      (buildSessionConfig st.currentModel sys).systemContent := by
  refine ⟨fun e => ?_, fun s1 => ?_, rfl, rfl, rfl⟩ <;>
    · unfold switchModel
      rw [if_neg hne, hse]
      cases dthrows <;> simp [hcl, hse]

/-- Witness for the amended C3 at a concrete state, with a succeeding
destroy and a failing create. -/
theorem switchModel_order_amended_witness :
    switchModel
        { client := true, session := some { sid := 7, destroyed := false },
          currentModel := "gpt-4o" }
        "claude-sonnet-4" "PROMPT" false (Except.error "boom") =
      ({ client := true, session := some { sid := 7, destroyed := true },
         currentModel := "claude-sonnet-4" },
       some "boom", some (buildSessionConfig "claude-sonnet-4" "PROMPT")) :=
  (switchModel_order_amended
    { client := true, session := some { sid := 7, destroyed := false },
      currentModel := "gpt-4o" }
    "claude-sonnet-4" "PROMPT" false { sid := 7, destroyed := false }
    (by decide) rfl rfl).1 "boom"

/-- Once `inBody` holds, the collecting loop keeps exactly the non-heading,
non-character-count lines. -/
lemma extractDescBody_true (ls : List String) :
    extractDescBody true ls =
      ls.filter (fun l => !(jsStartsWith l "#") && !(isCharCountLine l)) := by
  induction ls with
  | nil => rfl
  | cons l rest ih =>
    cases h1 : jsStartsWith l "#" <;> cases h2 : isCharCountLine l <;>
      simp [extractDescBody, List.filter_cons, h1, h2, ih]

/-- Before the first heading line the collecting loop keeps nothing; from
the first heading line on it keeps the non-heading, non-character-count
lines. -/
lemma extractDescBody_false (ls : List String) :
    extractDescBody false ls =
      match dropThroughFirstHeading ls with
      | none => []
      | some rest =>
        rest.filter (fun l => !(jsStartsWith l "#") && !(isCharCountLine l)) := by
  induction ls with
  | nil => rfl
  | cons l rest ih =>
    cases h1 : jsStartsWith l "#" <;> cases h2 : isCharCountLine l <;>
      simp [extractDescBody, dropThroughFirstHeading, h1, h2, ih,
        extractDescBody_true]

/-- C6 counterexample: on an input with no heading line at all, the claimed
reading (drop heading and character-count lines, keep the rest) returns the
44-character body, but `extractDescription` returns absent, because its
`inBody` flag only turns on at the first heading line and every line before
that is dropped.  This falsifies the claim that all remaining lines of the
input are concatenated. -/
theorem extractDescription_claim_counterexample :
    extractDescription "this line has well over ten characters total" = none ∧
    extractDescriptionClaimed "this line has well over ten characters total" =
      some "this line has well over ten characters total" := by
  decide

/-- C6 amended: `extractDescription` drops everything up to and including
the first markdown heading line (returning absent when no heading line
exists), then drops heading and character-count annotation lines from the
remainder, concatenates, trims, and returns absent when the body is 10
characters or fewer and the trimmed body otherwise; in particular a heading
plus a 5-character body yields absent and a heading plus a 50-character
body yields the body with the heading removed. -/
theorem extractDescription_amended :
    (∀ content, extractDescription content = extractDescriptionAmended content) ∧
    extractDescription "# Title\nhello" = none ∧
    extractDescription
        "# Title\nThis app helps you track workouts and calories win" =
      some "This app helps you track workouts and calories win" := by
  refine ⟨fun content => ?_, by decide, by decide⟩
  simp only [extractDescription, extractDescriptionAmended]
  rw [extractDescBody_false]
  cases h : dropThroughFirstHeading
      ((jsSplitChar '\n' content.data).map String.mk) with
  | none => simp [h, joinWith, jsTrim, jsTrimL]
  | some rest => simp [h]

/-- Lowercasing distributes over string append. -/
lemma jsToLower_append (s t : String) :
    jsToLower (s ++ t) = jsToLower s ++ jsToLower t := by
  show String.mk (List.map Char.toLower (s.data ++ t.data)) =
    String.mk (s.data.map Char.toLower ++ t.data.map Char.toLower)
  rw [List.map_append]

/-- A list is a `isPrefixOf` of itself extended by anything. -/
lemma isPrefixOf_append_self (l m : List Char) :
    l.isPrefixOf (l ++ m) = true := by
  induction l with
  | nil => simp [List.isPrefixOf]
  | cons a as ih => simp [List.isPrefixOf, ih]

/-- `startsWith` holds on any extension of the tested head. -/
lemma jsStartsWith_append_self (p r : String) :
    jsStartsWith (p ++ r) p = true := by
  show p.data.isPrefixOf (p.data ++ r.data) = true
  exact isPrefixOf_append_self p.data r.data

/-- Two slash commands differing at their second character are not
prefix-related. -/
lemma isPrefixOf_slash_ne (c d : Char) (h : (c == d) = false)
    (cs ds : List Char) :
    List.isPrefixOf ('/' :: c :: cs) ('/' :: d :: ds) = false := by
  simp [List.isPrefixOf, h]

/-- A trimmed line of the form `/icon <rest>` never passes the `/score `
test. -/
lemma sw_icon_not_score (r : String) :
    jsStartsWith ("/icon " ++ r) "/score " = false := by
  show List.isPrefixOf ('/' :: 's' :: "core ".data)
    ('/' :: 'i' :: ("con ".data ++ r.data)) = false
  exact isPrefixOf_slash_ne 's' 'i' rfl _ _

/-- A trimmed line of the form `/feature <rest>` never passes the
`/score ` test. -/
lemma sw_feature_not_score (r : String) :
    jsStartsWith ("/feature " ++ r) "/score " = false := by
  show List.isPrefixOf ('/' :: 's' :: "core ".data)
    ('/' :: 'f' :: ("eature ".data ++ r.data)) = false
  exact isPrefixOf_slash_ne 's' 'f' rfl _ _

/-- A trimmed line of the form `/graphic <rest>` never passes the
`/score ` test. -/
lemma sw_graphic_not_score (r : String) :
    jsStartsWith ("/graphic " ++ r) "/score " = false := by
  show List.isPrefixOf ('/' :: 's' :: "core ".data)
    ('/' :: 'g' :: ("raphic ".data ++ r.data)) = false
  exact isPrefixOf_slash_ne 's' 'g' rfl _ _

/-- A trimmed line of the form `/feature <rest>` never passes the `/icon `
test. -/
lemma sw_feature_not_icon (r : String) :
    jsStartsWith ("/feature " ++ r) "/icon " = false := by
  show List.isPrefixOf ('/' :: 'i' :: "con ".data)
    ('/' :: 'f' :: ("eature ".data ++ r.data)) = false
  exact isPrefixOf_slash_ne 'i' 'f' rfl _ _

/-- A trimmed line of the form `/graphic <rest>` never passes the `/icon `
test. -/
lemma sw_graphic_not_icon (r : String) :
    jsStartsWith ("/graphic " ++ r) "/icon " = false := by
  show List.isPrefixOf ('/' :: 'i' :: "con ".data)
    ('/' :: 'g' :: ("raphic ".data ++ r.data)) = false
  exact isPrefixOf_slash_ne 'i' 'g' rfl _ _

/-- A trimmed line of the form `/graphic <rest>` never passes the
`/feature ` test. -/
lemma sw_graphic_not_feature (r : String) :
    jsStartsWith ("/graphic " ++ r) "/feature " = false := by
  show List.isPrefixOf ('/' :: 'f' :: "eature ".data)
    ('/' :: 'g' :: ("raphic ".data ++ r.data)) = false
  exact isPrefixOf_slash_ne 'f' 'g' rfl _ _

/-- `slice(n)` removes exactly an appended head of length `n`. -/
lemma jsSlice_append (p r : String) (n : Nat) (h : p.data.length = n) :
    jsSlice (p ++ r) n = r := by
  subst h
  show String.mk (List.drop p.data.length (p.data ++ r.data)) = r
  rw [List.drop_left]

/-- Lowercasing preserves the character count, so a string that lowercases
to a known literal has that literal's length. -/
lemma jsToLower_data_length (pre q : String) (h : jsToLower pre = q) :
    pre.data.length = q.data.length := by
  have h2 : pre.data.map Char.toLower = q.data := congrArg String.data h
  calc pre.data.length
      = (pre.data.map Char.toLower).length := (List.length_map _ _).symm
    _ = q.data.length := by rw [h2]

/-- C5 counterexample: the input `/score` followed only by whitespace trims
to the bare word `/score`, which carries no keyword, is absent from the
alias table, and therefore parses as a chat command carrying "/score" —
not as any no-argument form of the score command.  This falsifies the
claim for the `/score ` parameterized prefix with empty payload. -/
theorem parseCommand_score_claim_counterexample :
    parseCommand "/score   " = Command.chat "/score" := by
  decide

/-- C5 amended: for every input line whose trimmed form starts,
case-insensitively, with a recognized parameterized prefix, `parseCommand`
strips the prefix and treats the trimmed remainder (original casing
preserved) as the payload: a nonempty payload after `/score ` yields the
score command with that keyword, and any payload after `/icon `,
`/feature `, `/graphic ` yields the icon/feature command carrying the
trimmed payload (empty payload becoming the no-argument form); the bare
words `/icon`, `/feature`, `/graphic` (any casing) reach their
no-argument (interactive) forms through the alias table, while a line
trimming, case-insensitively, to bare `/score` is not in the alias table
and parses as a chat command carrying the trimmed line. -/
theorem parseCommand_param_amended :
    (∀ input pre rest, jsTrim input = pre ++ rest →
      jsToLower pre = "/score " → jsTrim rest ≠ "" →
      parseCommand input = Command.score (jsTrim rest)) ∧
    (∀ input, jsToLower (jsTrim input) = "/score" →
      parseCommand input = Command.chat (jsTrim input)) ∧
    (∀ input pre rest, jsTrim input = pre ++ rest →
      jsToLower pre = "/icon " →
      parseCommand input = Command.icon (strToOption (jsTrim rest))) ∧
    (∀ input, jsToLower (jsTrim input) = "/icon" →
      parseCommand input = Command.icon none) ∧
    (∀ input pre rest, jsTrim input = pre ++ rest →
      jsToLower pre = "/feature " →
      parseCommand input = Command.feature (strToOption (jsTrim rest))) ∧
    (∀ input pre rest, jsTrim input = pre ++ rest →
      jsToLower pre = "/graphic " →
      parseCommand input = Command.feature (strToOption (jsTrim rest))) ∧
    (∀ input, jsToLower (jsTrim input) = "/feature" →
      parseCommand input = Command.feature none) ∧
    (∀ input, jsToLower (jsTrim input) = "/graphic" →
      parseCommand input = Command.feature none) := by
  refine ⟨?_, ?_, ?_, ?_, ?_, ?_, ?_, ?_⟩
  · intro input pre rest h hpre hne
    have hlen : pre.data.length = 7 := jsToLower_data_length pre "/score " hpre
    unfold parseCommand
    rw [h]
    simp only [parseCommandCore]
    rw [jsToLower_append, hpre, jsStartsWith_append_self,
        jsSlice_append pre rest 7 hlen]
    simp [hne]
  · intro input h
    unfold parseCommand
    simp only [parseCommandCore]
    rw [h]
    simp [show jsStartsWith "/score" "/score " = false from by decide,
          show jsStartsWith "/score" "/icon " = false from by decide,
          show jsStartsWith "/score" "/feature " = false from by decide,
          show jsStartsWith "/score" "/graphic " = false from by decide,
          show commandMap "/score" = none from by decide]
    by_cases he : jsTrim input = ""
    · simp [he]
    · simp [he]
  · intro input pre rest h hpre
    have hlen : pre.data.length = 6 := jsToLower_data_length pre "/icon " hpre
    unfold parseCommand
    rw [h]
    simp only [parseCommandCore]
    rw [jsToLower_append, hpre, sw_icon_not_score, jsStartsWith_append_self,
        jsSlice_append pre rest 6 hlen]
    simp
  · intro input h
    unfold parseCommand
    simp only [parseCommandCore]
    rw [h]
    simp [show jsStartsWith "/icon" "/score " = false from by decide,
          show jsStartsWith "/icon" "/icon " = false from by decide,
          show jsStartsWith "/icon" "/feature " = false from by decide,
          show jsStartsWith "/icon" "/graphic " = false from by decide,
          show commandMap "/icon" = some (Command.icon none) from by decide]
  · intro input pre rest h hpre
    have hlen : pre.data.length = 9 :=
      jsToLower_data_length pre "/feature " hpre
    unfold parseCommand
    rw [h]
    simp only [parseCommandCore]
    rw [jsToLower_append, hpre, sw_feature_not_score, sw_feature_not_icon,
        jsStartsWith_append_self, jsSlice_append pre rest 9 hlen]
    simp
  · intro input pre rest h hpre
    have hlen : pre.data.length = 9 :=
      jsToLower_data_length pre "/graphic " hpre
    unfold parseCommand
    rw [h]
    simp only [parseCommandCore]
    rw [jsToLower_append, hpre, sw_graphic_not_score, sw_graphic_not_icon,
        sw_graphic_not_feature, jsStartsWith_append_self,
        jsSlice_append pre rest 9 hlen]
    simp
  · intro input h
    unfold parseCommand
    simp only [parseCommandCore]
    rw [h]
    simp [show jsStartsWith "/feature" "/score " = false from by decide,
          show jsStartsWith "/feature" "/icon " = false from by decide,
          show jsStartsWith "/feature" "/feature " = false from by decide,
          show jsStartsWith "/feature" "/graphic " = false from by decide,
          show commandMap "/feature" = some (Command.feature none) from by decide]
  · intro input h
    unfold parseCommand
    simp only [parseCommandCore]
    rw [h]
    simp [show jsStartsWith "/graphic" "/score " = false from by decide,
          show jsStartsWith "/graphic" "/icon " = false from by decide,
          show jsStartsWith "/graphic" "/feature " = false from by decide,
          show jsStartsWith "/graphic" "/graphic " = false from by decide,
          show commandMap "/graphic" = some (Command.feature none) from by decide]

/-- Witness for the amended C5 at concrete inputs for every conjunct,
including mixed-case prefixes and payloads with extra inner whitespace. -/
theorem parseCommand_param_amended_witness :
    parseCommand "/SCORE fitness" = Command.score "fitness" ∧
    parseCommand "/score  fitness" = Command.score "fitness" ∧
    parseCommand " /score " = Command.chat "/score" ∧
    parseCommand "/icon cute cat" = Command.icon (some "cute cat") ∧
    parseCommand "/ICON" = Command.icon none ∧
    parseCommand "/feature neon" = Command.feature (some "neon") ∧
    parseCommand "/graphic  neon" = Command.feature (some "neon") ∧
    parseCommand "/feature  " = Command.feature none ∧
    parseCommand "/graphic" = Command.feature none :=
  ⟨parseCommand_param_amended.1 "/SCORE fitness" "/SCORE " "fitness"
     (by decide) (by decide) (by decide),
   parseCommand_param_amended.1 "/score  fitness" "/score " " fitness"
     (by decide) (by decide) (by decide),
   parseCommand_param_amended.2.1 " /score " (by decide),
   parseCommand_param_amended.2.2.1 "/icon cute cat" "/icon " "cute cat"
     (by decide) (by decide),
   parseCommand_param_amended.2.2.2.1 "/ICON" (by decide),
   parseCommand_param_amended.2.2.2.2.1 "/feature neon" "/feature " "neon"
     (by decide) (by decide),
   parseCommand_param_amended.2.2.2.2.2.1 "/graphic  neon" "/graphic " " neon"
     (by decide) (by decide),
   parseCommand_param_amended.2.2.2.2.2.2.1 "/feature  " (by decide),
   parseCommand_param_amended.2.2.2.2.2.2.2 "/graphic" (by decide)⟩

end ARC
